import Mathlib

/-!
Verification of the HRMS backend authentication/authorization core.

The development shallowly embeds the Python sources:
  app/core/security.py   (password hashing wrapper, JWT issue/verify)
  app/api/auth.py        (login)
  app/api/users.py       (get_current_user_optional, create_user, get_users)
  app/api/departments.py (create_department)

Plaintext passwords and byte strings are modelled as lists of natural
numbers (their UTF-8 bytes, each below 256); persistent state is an
explicit `Store` value threaded through the handlers; HTTP exceptions
are explicit error values.
-/

namespace Hrms

/-! ## Credential hasher (app/core/security.py)

The external bcrypt primitive (`bcrypt.hashpw` / `bcrypt.checkpw`) is
modelled as an idealized keyed encoder: a digest records the salt and an
injective encoding of the input bytes, `checkpw` parses the digest and
recomputes.  The truncation to 72 bytes, the behaviour under oversized
input and the catch-all in `verify_password` are translated from the
source; the primitive itself is idealized (collision-free, and raising
on a digest it cannot parse, as the real primitive does). -/

/-- Idealized digest alphabet: byte `b` is stored as the character with
code point `b % 256 + 256`; these code points are valid, never a digit
and never the separator character. -/
def byteChar (b : Nat) : Char :=
  Char.ofNatAux (b % 256 + 256) (Or.inl (by omega))

/-- Encode a byte list into the digest body alphabet. -/
def encodeBytes (l : List Nat) : String :=
  String.mk (l.map byteChar)

/-- Model of `bcrypt.hashpw(password, salt)`: a digest `$2b$12$<salt>$<body>`
recording the cost-12 header, the salt and the encoded password bytes. -/
def bcrypt_hashpw (password salt : List Nat) : String :=
  "$2b$12$" ++ encodeBytes salt ++ "$" ++ encodeBytes password

/-- Split a character list at the first separator character. -/
def splitAtSep : List Char → Option (List Char × List Char)
  | [] => none
  | c :: cs =>
    if c = '$' then some ([], cs)
    else (splitAtSep cs).map (fun p => (c :: p.1, p.2))

/-- Parse a digest into its salt part and body part; `none` on a
malformed digest (wrong header or missing separator). -/
def parseDigest (d : String) : Option (List Char × List Char) :=
  match d.data with
  | '$' :: '2' :: 'b' :: '$' :: '1' :: '2' :: '$' :: rest => splitAtSep rest
  | _ => none

/-- Model of `bcrypt.checkpw(password, digest)`: parse the digest, then
compare its body with the encoding of the candidate password.  A digest
that does not parse raises (modelled as `Except.error`), as the real
primitive raises `ValueError("Invalid salt")`. -/
def bcrypt_checkpw (password : List Nat) (digest : String) : Except String Bool :=
  match parseDigest digest with
  | none => .error "Invalid salt"
  | some sb => .ok (sb.2 == (encodeBytes password).data)

/-- `security.py` line 19-20 and 44-45: truncate the UTF-8 bytes to the
first 72 bytes when longer (bcrypt limit). -/
def truncate72 (password_bytes : List Nat) : List Nat :=
  if password_bytes.length > 72 then password_bytes.take 72 else password_bytes

/-- Body of the `try` block of `verify_password`: encode, truncate,
call the primitive; its exceptions propagate. -/
def verify_password_body (plain_password : List Nat) (hashed_password : String) : Except String Bool :=
  bcrypt_checkpw (truncate72 plain_password) hashed_password

/-- `verify_password` (security.py lines 8-31): the whole body is inside
`try: ... except Exception: return False`. -/
def verify_password (plain_password : List Nat) (hashed_password : String) : Bool :=
  match verify_password_body plain_password hashed_password with
  | .ok b => b
  | .error _ => false

/-- `get_password_hash` (security.py lines 34-52); the random
`bcrypt.gensalt(rounds=12)` output is passed in explicitly. -/
def get_password_hash (password : List Nat) (salt : List Nat) : String :=
  bcrypt_hashpw (truncate72 password) salt

/-! ## Token service (app/core/security.py lines 55-74, app/core/settings.py)

A JWT is modelled symbolically: the signature is the signed material
itself (payload, expiry, signing key); `jwt_decode` accepts exactly when
the signature was made over this payload and expiry with this key, and
the `exp` claim is not in the past (jose rejects with zero leeway when
`exp < now`).  Times are epoch seconds (`Nat`); `datetime.utcnow()` is
the explicit `now` argument, and a `timedelta` is its nonnegative
number of seconds. -/

def SECRET_KEY : String := "your-secret-key-change-this-in-production-use-env-variable"

def ACCESS_TOKEN_EXPIRE_MINUTES : Nat := 30

/-- The claims dict passed to `jwt.encode`: login supplies
`{"sub": str(user.id), "email": ..., "role": ...}`; `sub` is optional so
that a token lacking the claim is representable. -/
structure TokenPayload where
  sub : Option String
  email : String
  role : String
deriving DecidableEq

structure Jwt where
  payload : TokenPayload
  exp : Nat
  sig : TokenPayload × Nat × String
deriving DecidableEq

def jwt_encode (payload : TokenPayload) (exp : Nat) (key : String) : Jwt :=
  ⟨payload, exp, (payload, exp, key)⟩

def jwt_decode (tok : Jwt) (key : String) (now : Nat) : Option (TokenPayload × Nat) :=
  if tok.sig = (tok.payload, tok.exp, key) then
    if tok.exp < now then none else some (tok.payload, tok.exp)
  else none

/-- `create_access_token` (security.py lines 55-65).  The source guard is
`if expires_delta:` — Python truthiness, not an `is not None` test — so
both `None` and `timedelta(0)` (and only those, for the nonnegative
deltas this codebase uses) select the default-TTL branch.  The guard is
therefore `d ≠ 0`, not mere presence. -/
def create_access_token (data : TokenPayload) (now : Nat) (expires_delta : Option Nat) : Jwt :=
  let expire : Nat :=
    match expires_delta with
    | some d => if d ≠ 0 then now + d else now + 60 * ACCESS_TOKEN_EXPIRE_MINUTES
    | none => now + 60 * ACCESS_TOKEN_EXPIRE_MINUTES
  jwt_encode data expire SECRET_KEY

/-- `decode_access_token` (security.py lines 68-74): `JWTError` (bad
signature, malformed token, expired claim) is caught and becomes `None`. -/
def decode_access_token (token : Jwt) (now : Nat) : Option TokenPayload :=
  match jwt_decode token SECRET_KEY now with
  | some pe => some pe.1
  | none => none

/-! ## Data model (app/models/user.py, department.py, office.py) -/

inductive UserRole where
  | employee
  | hr
  | sub_admin
  | admin
deriving DecidableEq

def UserRole.value : UserRole → String
  | .employee => "employee"
  | .hr => "hr"
  | .sub_admin => "sub_admin"
  | .admin => "admin"

/-- The `UserRole(value)` enum constructor; `ValueError` on an
unrecognized value is modelled as `none`. -/
def UserRole.ofValue : String → Option UserRole
  | "employee" => some .employee
  | "hr" => some .hr
  | "sub_admin" => some .sub_admin
  | "admin" => some .admin
  | _ => none

inductive UserStatus where
  | active
  | inactive
deriving DecidableEq

def UserStatus.value : UserStatus → String
  | .active => "active"
  | .inactive => "inactive"

def UserStatus.ofValue : String → Option UserStatus
  | "active" => some .active
  | "inactive" => some .inactive
  | _ => none

/-- A `users` table row.  Dates are modelled as day numbers; the
`created_at` / `updated_at` audit columns play no role in any handler
logic and are omitted. -/
structure User where
  id : Nat
  name : String
  email : String
  password_hash : String
  role : UserRole
  department_id : Option Int
  office_id : Option Int
  manager_id : Option Int
  date_of_joining : Option Nat
  date_of_birth : Option Nat
  status : UserStatus
deriving DecidableEq

structure Department where
  id : Nat
  department_name : String
deriving DecidableEq

structure Office where
  id : Nat
  office_name : String
  city : String
  country : String
  address : Option String
  remote : Bool
deriving DecidableEq

/-- The persistence store: the three tables plus the autoincrement
counters for the primary keys the handlers create. -/
structure Store where
  users : List User
  departments : List Department
  offices : List Office
  next_user_id : Nat
  next_department_id : Nat
deriving DecidableEq

def findUserByEmail (db : Store) (email : String) : Option User :=
  db.users.find? (fun u => u.email == email)

def findUserById (db : Store) (i : Int) : Option User :=
  db.users.find? (fun u => (u.id : Int) == i)

def findDepartmentById (db : Store) (i : Int) : Option Department :=
  db.departments.find? (fun d => (d.id : Int) == i)

def findOfficeById (db : Store) (i : Int) : Option Office :=
  db.offices.find? (fun o => (o.id : Int) == i)

def findDepartmentByName (db : Store) (name : String) : Option Department :=
  db.departments.find? (fun d => d.department_name == name)

/-- `select(func.count(User.id))`. -/
def countUsers (db : Store) : Nat := db.users.length

/-! ## HTTP errors and schemas (fastapi HTTPException, app/schemas) -/

structure HttpError where
  status_code : Nat
  detail : String
deriving DecidableEq

def incorrectCredentials : HttpError := ⟨401, "Incorrect email or password"⟩

def inactiveAccount : HttpError := ⟨403, "User account is inactive"⟩

def firstUserMustBeAdmin : HttpError := ⟨400, "First user must be an admin"⟩

def notAuthenticated : HttpError := ⟨401, "Not authenticated"⟩

def cannotCreateUsers : HttpError := ⟨403, "You don\x27t have permission to create users"⟩

def cannotViewUsers : HttpError := ⟨403, "You don\x27t have permission to view users"⟩

def emailAlreadyRegistered : HttpError := ⟨400, "Email already registered"⟩

def managerNotFound : HttpError := ⟨400, "Manager not found"⟩

def departmentNotFound : HttpError := ⟨400, "Department not found"⟩

def officeNotFound : HttpError := ⟨400, "Office not found"⟩

def invalidRole : HttpError :=
  ⟨400, "Invalid role. Must be one of: [\x27employee\x27, \x27hr\x27, \x27sub_admin\x27, \x27admin\x27]"⟩

def invalidStatus : HttpError :=
  ⟨400, "Invalid status. Must be one of: [\x27active\x27, \x27inactive\x27]"⟩

def departmentExists (name : String) : HttpError :=
  ⟨400, "Department \x27" ++ name ++ "\x27 already exists"⟩

deriving instance DecidableEq for Except

structure LoginRequest where
  email : String
  password : List Nat

structure TokenResponse where
  access_token : Jwt
  token_type : String
  user_id : Nat
  email : String
  role : String
  name : String
deriving DecidableEq

structure UserCreate where
  name : String
  email : String
  password : List Nat
  role : String
  department_id : Option Int
  office_id : Option Int
  manager_id : Option Int
  date_of_joining : Option Nat
  date_of_birth : Option Nat
  status : String
deriving DecidableEq

structure UserResponse where
  id : Nat
  name : String
  email : String
  role : String
  department_id : Option Int
  office_id : Option Int
  manager_id : Option Int
  date_of_joining : Option Nat
  date_of_birth : Option Nat
  status : String
deriving DecidableEq

structure UserListResponse where
  users : List UserResponse
  total : Nat
deriving DecidableEq

structure DepartmentCreate where
  department_name : String

structure DepartmentResponse where
  id : Nat
  department_name : String
deriving DecidableEq

/-! ## Auth flow: login (app/api/auth.py lines 15-65) -/

def login (db : Store) (login_data : LoginRequest) (now : Nat) : Except HttpError TokenResponse :=
  match findUserByEmail db login_data.email with
  | none => .error incorrectCredentials
  | some user =>
    if user.status.value ≠ UserStatus.active.value then .error inactiveAccount
    else if verify_password login_data.password user.password_hash = false then
      .error incorrectCredentials
    else
      let access_token := create_access_token
        ⟨some (toString user.id), user.email, user.role.value⟩ now
        (some (60 * ACCESS_TOKEN_EXPIRE_MINUTES))
      .ok ⟨access_token, "bearer", user.id, user.email, user.role.value, user.name⟩

/-! ## Auth flow: token resolution (app/api/users.py lines 16-44) -/

/-- Outcome of a Python call that may raise an exception the handler
does not catch (FastAPI would turn it into a 500 response). -/
inductive PyResult (α : Type) where
  | ok (a : α)
  | exc (msg : String)
deriving DecidableEq

def digitsVal : List Char → Nat → Option Nat
  | [], acc => some acc
  | c :: cs, acc => if c.isDigit then digitsVal cs (acc * 10 + (c.toNat - 48)) else none

/-- Model of Python `int(s)` on a string: an optional minus sign then a
nonempty run of decimal digits; anything else raises `ValueError`
(modelled as `none`).  Pythonic niceties (surrounding whitespace, a
plus sign, underscores) are not modelled; no subject string this
codebase issues uses them. -/
def pyInt? (s : String) : Option Int :=
  match s.data with
  | [] => none
  | '-' :: rest =>
    match rest with
    | [] => none
    | _ => (digitsVal rest 0).map (fun n => -(n : Int))
  | l => (digitsVal l 0).map (fun n => (n : Int))

/-- `get_current_user_optional`.  In this model the payload is a fixed
record, so `payload.get("sub")` is the `sub` field and the
`isinstance(user_id, str)` test always passes; `int(user_id)` on a
non-numeric subject raises `ValueError`. -/
def get_current_user_optional (db : Store) (credentials : Option Jwt) (now : Nat) :
    PyResult (Option User) :=
  match credentials with
  | none => .ok none
  | some token =>
    match decode_access_token token now with
    | none => .ok none
    | some payload =>
      match payload.sub with
      | none => .ok none
      | some user_id =>
        match pyInt? user_id with
        | none => .exc "ValueError"
        | some uid =>
          match findUserById db uid with
          | none => .ok none
          | some user =>
            if user.status.value ≠ UserStatus.active.value then .ok none
            else .ok (some user)

/-- Modelled from the spec: `get_current_user` is imported from
`app.core.dependencies`, a module absent from the given sources.  Spec
section 4.4 (required-mode resolution): a missing token, an
invalid/expired token, or a subject whose account no longer exists or
is not active, is an authentication failure (401) instead of anonymous
access; otherwise the live account is returned. -/
def get_current_user (db : Store) (credentials : Option Jwt) (now : Nat) :
    PyResult (Except HttpError User) :=
  match get_current_user_optional db credentials now with
  | .exc m => .exc m
  | .ok none => .ok (.error notAuthenticated)
  | .ok (some u) => .ok (.ok u)

/-! ## create_user (app/api/users.py lines 47-193) -/

/-- `x if x and x > 0 else None` — the value `0` (and a negative value)
is normalized to absent. -/
def normalizeRef (v : Option Int) : Option Int :=
  match v with
  | some x => if x ≠ 0 ∧ x > 0 then some x else none
  | none => none

def checkManager (db : Store) (manager_id : Option Int) : Option HttpError :=
  match manager_id with
  | some mid => if (findUserById db mid).isNone then some managerNotFound else none
  | none => none

def checkDepartment (db : Store) (department_id : Option Int) : Option HttpError :=
  match department_id with
  | some did => if (findDepartmentById db did).isNone then some departmentNotFound else none
  | none => none

def checkOffice (db : Store) (office_id : Option Int) : Option HttpError :=
  match office_id with
  | some oid => if (findOfficeById db oid).isNone then some officeNotFound else none
  | none => none

/-- The straight-line part of `create_user` after the authentication
gate (lines 87-177): duplicate-email check, reference normalization and
validation, enum parsing, then insert and commit.  Every handler result
carries the resulting store; each `raise` happens before `session.add`,
so error exits return the store unchanged.  The random bcrypt salt is
the explicit `salt` argument. -/
def create_user_checked (db : Store) (user_data : UserCreate) (salt : List Nat) :
    Store × Except HttpError User :=
  match findUserByEmail db user_data.email with
  | some _ => (db, .error emailAlreadyRegistered)
  | none =>
    let manager_id := normalizeRef user_data.manager_id
    match checkManager db manager_id with
    | some e => (db, .error e)
    | none =>
    let department_id := normalizeRef user_data.department_id
    match checkDepartment db department_id with
    | some e => (db, .error e)
    | none =>
    let office_id := normalizeRef user_data.office_id
    match checkOffice db office_id with
    | some e => (db, .error e)
    | none =>
    match UserRole.ofValue user_data.role with
    | none => (db, .error invalidRole)
    | some user_role =>
    match UserStatus.ofValue user_data.status with
    | none => (db, .error invalidStatus)
    | some user_status =>
      let new_user : User :=
        { id := db.next_user_id
          name := user_data.name
          email := user_data.email
          password_hash := get_password_hash user_data.password salt
          role := user_role
          department_id := department_id
          office_id := office_id
          manager_id := manager_id
          date_of_joining := user_data.date_of_joining
          date_of_birth := user_data.date_of_birth
          status := user_status }
      ({ db with users := db.users ++ [new_user], next_user_id := db.next_user_id + 1 },
        .ok new_user)

/-- `create_user` (lines 47-193): the bootstrap / authentication /
authorization gate (lines 58-85), then the checked creation.  The
resolved `current_user` dependency is passed in, as in the source
signature. -/
def create_user (db : Store) (current_user : Option User) (user_data : UserCreate)
    (salt : List Nat) : Store × Except HttpError User :=
  let user_count := countUsers db
  if user_count = 0 then
    if user_data.role ≠ UserRole.admin.value then (db, .error firstUserMustBeAdmin)
    else create_user_checked db user_data salt
  else
    match current_user with
    | none => (db, .error notAuthenticated)
    | some cu =>
      if cu.role ∉ [UserRole.admin, UserRole.sub_admin, UserRole.hr] then
        (db, .error cannotCreateUsers)
      else create_user_checked db user_data salt

/-! ## create_department (app/api/departments.py lines 12-43) -/

def create_department (db : Store) (department_data : DepartmentCreate) :
    Store × Except HttpError Department :=
  match findDepartmentByName db department_data.department_name with
  | some _ => (db, .error (departmentExists department_data.department_name))
  | none =>
    let new_department : Department :=
      { id := db.next_department_id, department_name := department_data.department_name }
    ({ db with departments := db.departments ++ [new_department], next_department_id := db.next_department_id + 1 },
      .ok new_department)

/-! ## get_users (app/api/users.py lines 196-284) -/

/-- Filter parsing for the main query (lines 219-238): `if role:` is
Python truthiness, so `None` and the empty string leave the filter off;
a non-empty unrecognized value is a 400. -/
def parseRoleFilter (role : Option String) : Except HttpError (Option UserRole) :=
  match role with
  | some r =>
    if r ≠ "" then
      match UserRole.ofValue r with
      | some ur => .ok (some ur)
      | none => .error invalidRole
    else .ok none
  | none => .ok none

def parseStatusFilter (status_filter : Option String) : Except HttpError (Option UserStatus) :=
  match status_filter with
  | some s =>
    if s ≠ "" then
      match UserStatus.ofValue s with
      | some us => .ok (some us)
      | none => .error invalidStatus
    else .ok none
  | none => .ok none

/-- Filter reconstruction for the count query (lines 240-253): parse
failures are swallowed by `except ValueError: pass`, leaving that
filter off. -/
def countRoleFilter (role : Option String) : Option UserRole :=
  match role with
  | some r => if r ≠ "" then UserRole.ofValue r else none
  | none => none

def countStatusFilter (status_filter : Option String) : Option UserStatus :=
  match status_filter with
  | some s => if s ≠ "" then UserStatus.ofValue s else none
  | none => none

def applyFilters (users : List User) (rf : Option UserRole) (sf : Option UserStatus) :
    List User :=
  users.filter (fun u =>
    (match rf with
     | some r => u.role == r
     | none => true) &&
    (match sf with
     | some s => u.status == s
     | none => true))

def userToResponse (u : User) : UserResponse :=
  ⟨u.id, u.name, u.email, u.role.value, u.department_id, u.office_id, u.manager_id,
    u.date_of_joining, u.date_of_birth, u.status.value⟩

def get_users (db : Store) (current_user : User) (skip limit : Nat)
    (role status_filter : Option String) : Except HttpError UserListResponse :=
  if current_user.role ∉ [UserRole.admin, UserRole.sub_admin, UserRole.hr] then
    .error cannotViewUsers
  else
    match parseRoleFilter role with
    | .error e => .error e
    | .ok rf =>
      match parseStatusFilter status_filter with
      | .error e => .error e
      | .ok sf =>
        let total := (applyFilters db.users (countRoleFilter role)
          (countStatusFilter status_filter)).length
        let page := ((applyFilters db.users rf sf).drop skip).take limit
        .ok ⟨page.map userToResponse, total⟩

/-! ## Concrete fixtures for the witness theorems -/

def pwBytes : List Nat := [112, 119, 49, 50, 51, 52]

def saltA : List Nat := [9, 7]

def hashedPw : String := get_password_hash pwBytes saltA

def activeAdmin : User :=
  ⟨1, "Alice", "alice@example.com", hashedPw, .admin, none, none, none, none, none, .active⟩

def inactiveBob : User :=
  ⟨2, "Bob", "bob@example.com", hashedPw, .employee, none, none, none, none, none, .inactive⟩

def activeCarol : User :=
  ⟨3, "Carol", "carol@example.com", hashedPw, .employee, none, none, none, none, none, .active⟩

def emptyStore : Store := ⟨[], [], [], 1, 1⟩

def store1 : Store :=
  ⟨[activeAdmin, inactiveBob, activeCarol], [⟨1, "Engineering"⟩], [], 4, 2⟩

def newUserData : UserCreate :=
  ⟨"Dave", "dave@example.com", pwBytes, "employee", none, none, none, none, none, "active"⟩

def cexPayload : TokenPayload := ⟨some "1", "alice@example.com", "admin"⟩

/-- A validly signed token for subject id 5 (an id present in no
fixture store), with a far-away expiry. -/
def ghostToken : Jwt := jwt_encode ⟨some "5", "ghost@example.com", "admin"⟩ 100000 SECRET_KEY

/-- A validly signed unexpired token for inactive Bob. -/
def bobToken : Jwt := jwt_encode ⟨some "2", "bob@example.com", "employee"⟩ 100000 SECRET_KEY

/-- A validly signed unexpired token for active Alice. -/
def aliceToken : Jwt := jwt_encode ⟨some "1", "alice@example.com", "admin"⟩ 100000 SECRET_KEY

/-- First-user creation data with all three references supplied as 0. -/
def adminData : UserCreate :=
  ⟨"Root", "root@example.com", pwBytes, "admin", some 0, some 0, some 0, none, none, "active"⟩

def rootUser : User :=
  ⟨1, "Root", "root@example.com", hashedPw, .admin, none, none, none, none, none, .active⟩

def storeAfterRoot : Store := ⟨[rootUser], [], [], 2, 1⟩

def dataBadMgr : UserCreate :=
  ⟨"Eve", "eve@example.com", pwBytes, "employee", none, none, some 9, none, none, "active"⟩

def dataBadDept : UserCreate :=
  ⟨"Eve", "eve@example.com", pwBytes, "employee", some 7, none, none, none, none, "active"⟩

def dataBadOffice : UserCreate :=
  ⟨"Eve", "eve@example.com", pwBytes, "employee", none, some 3, none, none, none, "active"⟩

def dupEmailData : UserCreate :=
  ⟨"Dup", "alice@example.com", pwBytes, "employee", none, none, none, none, none, "active"⟩

theorem byteChar_toNat (b : Nat) : (byteChar b).toNat = b % 256 + 256 := by
  simp [byteChar, Char.ofNatAux, Char.toNat, UInt32.toNat]

theorem byteChar_ne_sep (b : Nat) : byteChar b ≠ '$' := by
  intro h
  have h2 := congrArg Char.toNat h
  rw [byteChar_toNat] at h2
  have h3 : Char.toNat '$' = 36 := rfl
  rw [h3] at h2
  omega

theorem byteChar_inj {a b : Nat} (ha : a < 256) (hb : b < 256) (h : byteChar a = byteChar b) : a = b := by
  have := congrArg Char.toNat h
  rw [byteChar_toNat, byteChar_toNat] at this
  omega

theorem map_byteChar_inj (l1 : List Nat) : ∀ l2, (∀ b ∈ l1, b < 256) → (∀ b ∈ l2, b < 256) →
    l1.map byteChar = l2.map byteChar → l1 = l2 := by
  induction l1 with
  | nil =>
    intro l2 _ _ hd
    cases l2 with
    | nil => rfl
    | cons b t => simp at hd
  | cons a t ih =>
    intro l2 h1 h2 hd
    cases l2 with
    | nil => simp at hd
    | cons b t2 =>
      simp only [List.map_cons, List.cons.injEq] at hd
      have hab : a = b :=
        byteChar_inj (h1 a (List.mem_cons_self a t)) (h2 b (List.mem_cons_self b t2)) hd.1
      have ht : t = t2 :=
        ih t2 (fun x hx => h1 x (List.mem_cons_of_mem a hx))
          (fun x hx => h2 x (List.mem_cons_of_mem b hx)) hd.2
      rw [hab, ht]

theorem encodeBytes_inj {l1 l2 : List Nat} (h1 : ∀ b ∈ l1, b < 256) (h2 : ∀ b ∈ l2, b < 256)
    (h : encodeBytes l1 = encodeBytes l2) : l1 = l2 :=
  map_byteChar_inj l1 l2 h1 h2 (congrArg String.data h)

theorem splitAtSep_append (l r : List Char) (hl : ∀ c ∈ l, c ≠ '$') :
    splitAtSep (l ++ '$' :: r) = some (l, r) := by
  induction l with
  | nil => simp [splitAtSep]
  | cons c cs ih =>
    have hc : c ≠ '$' := hl c (List.mem_cons_self c cs)
    have ih2 := ih (fun x hx => hl x (List.mem_cons_of_mem c hx))
    simp [splitAtSep, if_neg hc, ih2]

theorem parseDigest_hashpw (password salt : List Nat) :
    parseDigest (bcrypt_hashpw password salt) =
      some ((encodeBytes salt).data, (encodeBytes password).data) := by
  have hsep : ∀ c ∈ (encodeBytes salt).data, c ≠ '$' := by
    intro c hc
    simp only [encodeBytes, List.mem_map] at hc
    obtain ⟨b, _, rfl⟩ := hc
    exact byteChar_ne_sep b
  simp only [bcrypt_hashpw, parseDigest]
  have hdata : ("$2b$12$" ++ encodeBytes salt ++ "$" ++ encodeBytes password).data =
      '$' :: '2' :: 'b' :: '$' :: '1' :: '2' :: '$' ::
        ((encodeBytes salt).data ++ '$' :: (encodeBytes password).data) := by
    simp [String.data_append]
  rw [hdata]
  exact splitAtSep_append _ _ hsep

theorem truncate72_eq_take (l : List Nat) : truncate72 l = l.take 72 := by
  unfold truncate72
  split
  · rfl
  · rw [List.take_of_length_le (by omega)]

theorem checkpw_hashpw (p q salt : List Nat) :
    bcrypt_checkpw p (bcrypt_hashpw q salt) =
      .ok ((encodeBytes q).data == (encodeBytes p).data) := by
  simp [bcrypt_checkpw, parseDigest_hashpw]

theorem verify_password_eq (p q salt : List Nat) :
    verify_password p (get_password_hash q salt) =
      ((encodeBytes (truncate72 q)).data == (encodeBytes (truncate72 p)).data) := by
  simp [verify_password, verify_password_body, get_password_hash, checkpw_hashpw]

/-- C5: for every password p, verify(p, hash(p)) is true; hash and
verify depend only on the first 72 bytes of the password, so two
passwords sharing a 72-byte prefix are indistinguishable; and
verify(p, hash(p2)) is false when p and p2 differ within that prefix. -/
theorem password_hash_verify_spec (p p2 salt : List Nat) (d : String) :
    verify_password p (get_password_hash p salt) = true ∧
    (p.take 72 = p2.take 72 →
      verify_password p d = verify_password p2 d ∧
      get_password_hash p salt = get_password_hash p2 salt) ∧
    ((∀ b ∈ p, b < 256) → (∀ b ∈ p2, b < 256) → p.take 72 ≠ p2.take 72 →
      verify_password p (get_password_hash p2 salt) = false) := by
  refine ⟨?_, fun hpre => ⟨?_, ?_⟩, fun hb1 hb2 hne => ?_⟩
  · rw [verify_password_eq]
    exact beq_self_eq_true _
  · unfold verify_password verify_password_body
    rw [truncate72_eq_take, truncate72_eq_take, hpre]
  · unfold get_password_hash
    rw [truncate72_eq_take, truncate72_eq_take, hpre]
  · rw [verify_password_eq, beq_eq_false_iff_ne]
    intro hdata
    have hmap : (truncate72 p2).map byteChar = (truncate72 p).map byteChar := hdata
    have h := map_byteChar_inj (truncate72 p2) (truncate72 p)
      (fun b hb => hb2 b (by rw [truncate72_eq_take] at hb; exact List.take_subset 72 p2 hb))
      (fun b hb => hb1 b (by rw [truncate72_eq_take] at hb; exact List.take_subset 72 p hb))
      hmap
    rw [truncate72_eq_take, truncate72_eq_take] at h
    exact hne h.symm

/-- C5 witness: a concrete round trip, a concrete pair agreeing on the
first 72 bytes but differing at byte 73, and a concrete pair differing
inside the prefix. -/
theorem password_hash_verify_spec_witness :
    verify_password [104, 105] (get_password_hash [104, 105] saltA) = true ∧
    verify_password (List.replicate 72 97 ++ [1]) hashedPw =
      verify_password (List.replicate 72 97 ++ [2]) hashedPw ∧
    verify_password [104, 105] (get_password_hash [104, 106] saltA) = false :=
  ⟨(password_hash_verify_spec [104, 105] [104, 105] saltA "").1,
   ((password_hash_verify_spec (List.replicate 72 97 ++ [1]) (List.replicate 72 97 ++ [2])
      saltA hashedPw).2.1 (by decide)).1,
   (password_hash_verify_spec [104, 105] [104, 106] saltA "").2.2
     (by decide) (by decide) (by decide)⟩

/-- C9: verify always yields a boolean, and whenever the body of the
`try` block raises, the exception is absorbed into a failed
verification. -/
theorem verify_password_never_raises (p : List Nat) (d : String) :
    (verify_password p d = true ∨ verify_password p d = false) ∧
    ∀ e, verify_password_body p d = .error e → verify_password p d = false := by
  constructor
  · cases h : verify_password p d
    · exact Or.inr rfl
    · exact Or.inl rfl
  · intro e he
    simp [verify_password, he]

/-- C9 witness: a malformed digest makes the body raise, and verify
reports false. -/
theorem verify_password_never_raises_witness :
    verify_password_body [104] "nothash" = .error "Invalid salt" ∧
    verify_password [104] "nothash" = false :=
  ⟨rfl, (verify_password_never_raises [104] "nothash").2 "Invalid salt" rfl⟩

theorem decode_encode (p : TokenPayload) (e now : Nat) (h : ¬ e < now) :
    decode_access_token (jwt_encode p e SECRET_KEY) now = some p := by
  simp [decode_access_token, jwt_decode, jwt_encode, h]

/-- C1 counterexample: a token issued at instant 1000 with ttl=0 does
not carry expiry 1000 (the falsy `timedelta(0)` selects the
default-TTL branch), and verify accepts it at the issuance instant
instead of rejecting it as expired. -/
theorem issue_ttl_zero_cex :
    (create_access_token cexPayload 1000 (some 0)).exp ≠ 1000 ∧
    decode_access_token (create_access_token cexPayload 1000 (some 0)) 1000 = some cexPayload :=
  ⟨by decide, by decide⟩

/-- C1 amended: issue embeds expiry now + ttl for every nonzero ttl;
with ttl=0 the truthiness test `if expires_delta:` fails, the token
gets the configured default expiry now + 30 minutes, and verify
accepts it at any instant up to that expiry. -/
theorem create_access_token_expiry (p : TokenPayload) (now d : Nat) :
    (d ≠ 0 → (create_access_token p now (some d)).exp = now + d) ∧
    (create_access_token p now (some 0)).exp = now + 60 * ACCESS_TOKEN_EXPIRE_MINUTES ∧
    ∀ t, t ≤ now + 60 * ACCESS_TOKEN_EXPIRE_MINUTES →
      decode_access_token (create_access_token p now (some 0)) t = some p := by
  refine ⟨fun hd => ?_, ?_, fun t ht => ?_⟩
  · simp [create_access_token, jwt_encode, hd]
  · simp [create_access_token, jwt_encode]
  · have hform : create_access_token p now (some 0) =
        jwt_encode p (now + 60 * ACCESS_TOKEN_EXPIRE_MINUTES) SECRET_KEY := by
      simp [create_access_token]
    rw [hform]
    exact decode_encode p _ t (by omega)

/-- C1 amended witness: concrete instants. -/
theorem create_access_token_expiry_witness :
    (create_access_token cexPayload 50 (some 7)).exp = 57 ∧
    (create_access_token cexPayload 50 (some 0)).exp = 1850 ∧
    decode_access_token (create_access_token cexPayload 50 (some 0)) 1850 = some cexPayload := by
  refine ⟨(create_access_token_expiry cexPayload 50 7).1 (by decide), ?_, ?_⟩
  · have h := (create_access_token_expiry cexPayload 50 0).2.1
    simpa [ACCESS_TOKEN_EXPIRE_MINUTES] using h
  · exact (create_access_token_expiry cexPayload 50 0).2.2 1850
      (by norm_num [ACCESS_TOKEN_EXPIRE_MINUTES])

theorem status_value_ne_iff (s : UserStatus) :
    s.value ≠ UserStatus.active.value ↔ s ≠ UserStatus.active := by
  cases s <;> simp [UserStatus.value]

theorem login_unknown_email (db : Store) (req : LoginRequest) (now : Nat)
    (h : findUserByEmail db req.email = none) : login db req now = .error incorrectCredentials := by
  simp [login, h]

theorem login_inactive (db : Store) (req : LoginRequest) (now : Nat) (u : User)
    (hu : findUserByEmail db req.email = some u) (hs : u.status ≠ UserStatus.active) :
    login db req now = .error inactiveAccount := by
  have hv2 : u.status.value ≠ UserStatus.active.value := (status_value_ne_iff u.status).mpr hs
  simp [login, hu, hv2]

theorem login_bad_password (db : Store) (req : LoginRequest) (now : Nat) (u : User)
    (hu : findUserByEmail db req.email = some u) (hs : u.status = UserStatus.active)
    (hv : verify_password req.password u.password_hash = false) :
    login db req now = .error incorrectCredentials := by
  have hval : u.status.value = UserStatus.active.value := by rw [hs]
  simp [login, hu, hval, hv]

/-- C2: an unknown email and a wrong password produce the identical
generic 401; an account whose status is not active produces the
distinct 403 inactive error, decided before password verification, so
for an inactive account the outcome does not depend on the supplied
password. -/
theorem login_error_cases (db : Store) (req : LoginRequest) (now : Nat) :
    (findUserByEmail db req.email = none → login db req now = .error incorrectCredentials) ∧
    (∀ u, findUserByEmail db req.email = some u → u.status ≠ UserStatus.active →
      login db req now = .error inactiveAccount) ∧
    (∀ u, findUserByEmail db req.email = some u → u.status = UserStatus.active →
      verify_password req.password u.password_hash = false →
      login db req now = .error incorrectCredentials) :=
  ⟨fun h => login_unknown_email db req now h,
   fun u hu hs => login_inactive db req now u hu hs,
   fun u hu hs hv => login_bad_password db req now u hu hs hv⟩

/-- C2 witness: unknown email, inactive account (with the stored
correct password), and wrong password on an active account. -/
theorem login_error_cases_witness :
    login emptyStore ⟨"nobody@example.com", pwBytes⟩ 0 = .error incorrectCredentials ∧
    login store1 ⟨"bob@example.com", pwBytes⟩ 0 = .error inactiveAccount ∧
    login store1 ⟨"alice@example.com", [0]⟩ 0 = .error incorrectCredentials :=
  ⟨(login_error_cases emptyStore ⟨"nobody@example.com", pwBytes⟩ 0).1 rfl,
   (login_error_cases store1 ⟨"bob@example.com", pwBytes⟩ 0).2.1 inactiveBob rfl (by decide),
   (login_error_cases store1 ⟨"alice@example.com", [0]⟩ 0).2.2 activeAdmin rfl rfl (by decide)⟩

/-- C3: with zero stored accounts, create_user ignores the caller
identity entirely, rejects any role other than admin with the 400
first-admin error, and can only succeed with role admin; once accounts
exist, a request without a resolved identity is a 401 and a resolved
identity outside {admin, sub_admin, hr} is a 403, while an allowed
role proceeds to the post-gate checks. -/
theorem create_user_auth_gate (db : Store) (cur : Option User) (data : UserCreate)
    (salt : List Nat) :
    (countUsers db = 0 →
      (data.role ≠ "admin" → create_user db cur data salt = (db, .error firstUserMustBeAdmin)) ∧
      (∀ cur2, create_user db cur data salt = create_user db cur2 data salt) ∧
      (∀ db2 u, create_user db cur data salt = (db2, .ok u) → data.role = "admin")) ∧
    (countUsers db ≠ 0 →
      (cur = none → create_user db cur data salt = (db, .error notAuthenticated)) ∧
      (∀ cu, cur = some cu → cu.role ∉ [UserRole.admin, UserRole.sub_admin, UserRole.hr] →
        create_user db cur data salt = (db, .error cannotCreateUsers)) ∧
      (∀ cu, cur = some cu → cu.role ∈ [UserRole.admin, UserRole.sub_admin, UserRole.hr] →
        create_user db cur data salt = create_user_checked db data salt)) := by
  constructor
  · intro h0
    refine ⟨fun hr => ?_, fun cur2 => ?_, fun db2 u hok => ?_⟩
    · simp [create_user, h0, UserRole.value, hr]
    · simp [create_user, h0]
    · by_contra hr
      simp [create_user, h0, UserRole.value, hr] at hok
  · intro hn
    refine ⟨fun hc => ?_, fun cu hc hrole => ?_, fun cu hc hrole => ?_⟩
    · simp [create_user, hn, hc]
    · simp [create_user, hn, hc, hrole]
    · simp [create_user, hn, hc, hrole]

/-- C3 witness: first-user role rejection on the empty directory, 401
without identity and 403 for an employee once accounts exist, and an
admin passing the gate. -/
theorem create_user_auth_gate_witness :
    create_user emptyStore none newUserData saltA = (emptyStore, .error firstUserMustBeAdmin) ∧
    create_user store1 none newUserData saltA = (store1, .error notAuthenticated) ∧
    create_user store1 (some activeCarol) newUserData saltA = (store1, .error cannotCreateUsers) ∧
    create_user store1 (some activeAdmin) newUserData saltA =
      create_user_checked store1 newUserData saltA :=
  ⟨((create_user_auth_gate emptyStore none newUserData saltA).1 rfl).1 (by decide),
   ((create_user_auth_gate store1 none newUserData saltA).2 (by decide)).1 rfl,
   ((create_user_auth_gate store1 (some activeCarol) newUserData saltA).2 (by decide)).2.1
     activeCarol rfl (by decide),
   ((create_user_auth_gate store1 (some activeAdmin) newUserData saltA).2 (by decide)).2.2
     activeAdmin rfl (by decide)⟩

theorem find?_mem {α : Type} (p : α → Bool) (l : List α) (a : α) (h : l.find? p = some a) :
    a ∈ l := List.mem_of_find?_eq_some h

theorem status_eq_of_value_eq (s : UserStatus) (h : s.value = UserStatus.active.value) :
    s = UserStatus.active := by
  cases s
  · rfl
  · simp [UserStatus.value] at h

/-- C4: any identity a token resolves to is a live directory member
with active status — for every presented credential, including a
validly signed, unexpired token; a token whose subject account is
missing or inactive resolves to anonymous; and login on an inactive
account fails with the inactive error for every password.  The
required-mode resolver is modelled from the spec (its module is not in
the sources) on top of the optional resolver from the sources. -/
theorem resolved_identity_is_live_active (db : Store) (cred : Option Jwt) (now : Nat) :
    (∀ u, get_current_user_optional db cred now = .ok (some u) →
      u ∈ db.users ∧ u.status = UserStatus.active) ∧
    (∀ u, get_current_user db cred now = .ok (.ok u) →
      u ∈ db.users ∧ u.status = UserStatus.active) ∧
    (∀ tok payload s uid, cred = some tok → decode_access_token tok now = some payload →
      payload.sub = some s → pyInt? s = some uid →
      (∀ u, findUserById db uid = some u → u.status ≠ UserStatus.active) →
      get_current_user_optional db cred now = .ok none) ∧
    (∀ e u, findUserByEmail db e = some u → u.status ≠ UserStatus.active →
      ∀ pw, login db ⟨e, pw⟩ now = .error inactiveAccount) := by
  have hopt : ∀ u, get_current_user_optional db cred now = .ok (some u) →
      u ∈ db.users ∧ u.status = UserStatus.active := by
    intro u h
    unfold get_current_user_optional at h
    split at h
    · exact absurd h (by simp)
    · split at h
      · exact absurd h (by simp)
      · split at h
        · exact absurd h (by simp)
        · split at h
          · exact absurd h (by simp)
          · split at h
            · exact absurd h (by simp)
            · rename_i user hfind
              split at h
              · exact absurd h (by simp)
              · rename_i hval
                have hu : user = u := by simpa using h
                subst hu
                refine ⟨find?_mem _ _ _ hfind, ?_⟩
                exact status_eq_of_value_eq user.status (by
                  by_contra hne
                  exact hval ((status_value_ne_iff user.status).mpr
                    (fun heq => hne (by rw [heq]))))
  refine ⟨hopt, fun u h => ?_, fun tok payload s uid hc hdec hsub hint hdead => ?_, ?_⟩
  · unfold get_current_user at h
    split at h
    · exact absurd h (by simp)
    · exact absurd h (by simp)
    · rename_i u2 hopt2
      have : u2 = u := by simpa using h
      subst this
      exact hopt u2 hopt2
  · subst hc
    simp only [get_current_user_optional, hdec, hsub, hint]
    cases hfind : findUserById db uid with
    | none => rfl
    | some user =>
      have hv2 : user.status.value ≠ UserStatus.active.value :=
        (status_value_ne_iff user.status).mpr (hdead user hfind)
      simp [hv2]
  · intro e u hu hs pw
    exact login_inactive db ⟨e, pw⟩ now u hu hs

/-- C4 witness: a valid unexpired token for a deleted account resolves
to anonymous; a valid token for inactive Bob resolves to anonymous in
required mode becoming a 401; login on inactive Bob with the correct
password fails; and Alice resolves to a live active identity. -/
theorem resolved_identity_is_live_active_witness :
    get_current_user_optional store1 (some ghostToken) 0 = .ok none ∧
    (activeAdmin ∈ store1.users ∧ activeAdmin.status = UserStatus.active) ∧
    login store1 ⟨"bob@example.com", pwBytes⟩ 77 = .error inactiveAccount :=
  ⟨(resolved_identity_is_live_active store1 (some ghostToken) 0).2.2.1
     ghostToken ⟨some "5", "ghost@example.com", "admin"⟩ "5" 5 rfl rfl rfl (by decide)
     (fun u hu => by simp [findUserById, store1, activeAdmin, inactiveBob, activeCarol] at hu),
   (resolved_identity_is_live_active store1 (some aliceToken) 0).1 activeAdmin (by decide),
   (resolved_identity_is_live_active store1 none 77).2.2.2 "bob@example.com" inactiveBob rfl
     (by decide) pwBytes⟩

theorem create_user_checked_error (db : Store) (data : UserCreate) (salt : List Nat)
    (db2 : Store) (e : HttpError)
    (h : create_user_checked db data salt = (db2, .error e)) : db2 = db := by
  simp only [create_user_checked] at h
  split at h
  · injection h with h1 h2
    exact h1.symm
  · split at h
    · injection h with h1 h2
      exact h1.symm
    · split at h
      · injection h with h1 h2
        exact h1.symm
      · split at h
        · injection h with h1 h2
          exact h1.symm
        · split at h
          · injection h with h1 h2
            exact h1.symm
          · split at h
            · injection h with h1 h2
              exact h1.symm
            · injection h with h1 h2
              exact absurd h2 (by simp)

theorem create_user_error (db : Store) (cur : Option User) (data : UserCreate)
    (salt : List Nat) (db2 : Store) (e : HttpError)
    (h : create_user db cur data salt = (db2, .error e)) : db2 = db := by
  simp only [create_user] at h
  split at h
  · split at h
    · injection h with h1 h2
      exact h1.symm
    · exact create_user_checked_error db data salt db2 e h
  · split at h
    · injection h with h1 h2
      exact h1.symm
    · split at h
      · injection h with h1 h2
        exact h1.symm
      · exact create_user_checked_error db data salt db2 e h

theorem create_department_error (db : Store) (dd : DepartmentCreate) (db2 : Store)
    (e : HttpError) (h : create_department db dd = (db2, .error e)) : db2 = db := by
  simp only [create_department] at h
  split at h
  · injection h with h1 h2
    exact h1.symm
  · injection h with h1 h2
    exact absurd h2 (by simp)

theorem create_user_checked_ok_spec (db : Store) (data : UserCreate) (salt : List Nat)
    (db2 : Store) (u : User) (h : create_user_checked db data salt = (db2, .ok u)) :
    findUserByEmail db data.email = none ∧
    u.email = data.email ∧
    u.manager_id = normalizeRef data.manager_id ∧
    u.department_id = normalizeRef data.department_id ∧
    u.office_id = normalizeRef data.office_id ∧
    checkManager db (normalizeRef data.manager_id) = none ∧
    checkDepartment db (normalizeRef data.department_id) = none ∧
    checkOffice db (normalizeRef data.office_id) = none ∧
    db2.users = db.users ++ [u] := by
  simp only [create_user_checked] at h
  split at h
  · exact absurd h (by simp)
  · rename_i hfresh
    split at h
    · exact absurd h (by simp)
    · rename_i hmgr
      split at h
      · exact absurd h (by simp)
      · rename_i hdept
        split at h
        · exact absurd h (by simp)
        · rename_i hoff
          split at h
          · exact absurd h (by simp)
          · split at h
            · exact absurd h (by simp)
            · injection h with h1 h2
              injection h2 with h3
              subst h3
              subst h1
              exact ⟨hfresh, rfl, rfl, rfl, rfl, hmgr, hdept, hoff, rfl⟩

theorem create_user_ok_to_checked (db : Store) (cur : Option User) (data : UserCreate)
    (salt : List Nat) (db2 : Store) (u : User)
    (h : create_user db cur data salt = (db2, .ok u)) :
    create_user_checked db data salt = (db2, .ok u) := by
  simp only [create_user] at h
  split at h
  · split at h
    · exact absurd h (by simp)
    · exact h
  · split at h
    · exact absurd h (by simp)
    · split at h
      · exact absurd h (by simp)
      · exact h

theorem normalizeRef_zero : normalizeRef (some 0) = none := by
  simp [normalizeRef]

theorem normalizeRef_pos (v : Int) (hv : 0 < v) : normalizeRef (some v) = some v := by
  simp only [normalizeRef]
  rw [if_pos ⟨by omega, hv⟩]

theorem checkManager_none (db : Store) (v : Int) (h : checkManager db (some v) = none) :
    ∃ m, findUserById db v = some m := by
  cases hf : findUserById db v with
  | none => simp [checkManager, hf] at h
  | some m => exact ⟨m, rfl⟩

theorem checkDepartment_none (db : Store) (v : Int) (h : checkDepartment db (some v) = none) :
    ∃ d2, findDepartmentById db v = some d2 := by
  cases hf : findDepartmentById db v with
  | none => simp [checkDepartment, hf] at h
  | some d2 => exact ⟨d2, rfl⟩

theorem checkOffice_none (db : Store) (v : Int) (h : checkOffice db (some v) = none) :
    ∃ o, findOfficeById db v = some o := by
  cases hf : findOfficeById db v with
  | none => simp [checkOffice, hf] at h
  | some o => exact ⟨o, rfl⟩

/-- C6: on any successful creation, a reference supplied as 0 is stored
as absent and a positive reference referred to an existing record of
its kind; and (reaching the respective check) a positive reference
matching no record fails with its 400 not-found error, leaving the
store unchanged. -/
theorem create_user_reference_fields (db : Store) (cur : Option User) (data : UserCreate)
    (salt : List Nat) :
    (∀ db2 u, create_user db cur data salt = (db2, .ok u) →
      (data.manager_id = some 0 → u.manager_id = none) ∧
      (data.department_id = some 0 → u.department_id = none) ∧
      (data.office_id = some 0 → u.office_id = none) ∧
      (∀ v, data.manager_id = some v → 0 < v → ∃ m, findUserById db v = some m) ∧
      (∀ v, data.department_id = some v → 0 < v → ∃ d2, findDepartmentById db v = some d2) ∧
      (∀ v, data.office_id = some v → 0 < v → ∃ o, findOfficeById db v = some o)) ∧
    (findUserByEmail db data.email = none →
      (∀ v, data.manager_id = some v → 0 < v → findUserById db v = none →
        create_user_checked db data salt = (db, .error managerNotFound)) ∧
      (∀ v, data.department_id = some v → 0 < v → findDepartmentById db v = none →
        checkManager db (normalizeRef data.manager_id) = none →
        create_user_checked db data salt = (db, .error departmentNotFound)) ∧
      (∀ v, data.office_id = some v → 0 < v → findOfficeById db v = none →
        checkManager db (normalizeRef data.manager_id) = none →
        checkDepartment db (normalizeRef data.department_id) = none →
        create_user_checked db data salt = (db, .error officeNotFound))) := by
  constructor
  · intro db2 u hok
    have hc := create_user_ok_to_checked db cur data salt db2 u hok
    have hs := create_user_checked_ok_spec db data salt db2 u hc
    refine ⟨fun h0 => ?_, fun h0 => ?_, fun h0 => ?_,
      fun v hv hpos => ?_, fun v hv hpos => ?_, fun v hv hpos => ?_⟩
    · rw [hs.2.2.1, h0, normalizeRef_zero]
    · rw [hs.2.2.2.1, h0, normalizeRef_zero]
    · rw [hs.2.2.2.2.1, h0, normalizeRef_zero]
    · apply checkManager_none db v
      have h2 := hs.2.2.2.2.2.1
      rwa [hv, normalizeRef_pos v hpos] at h2
    · apply checkDepartment_none db v
      have h2 := hs.2.2.2.2.2.2.1
      rwa [hv, normalizeRef_pos v hpos] at h2
    · apply checkOffice_none db v
      have h2 := hs.2.2.2.2.2.2.2.1
      rwa [hv, normalizeRef_pos v hpos] at h2
  · intro hfresh
    refine ⟨fun v hv hpos hfind => ?_, fun v hv hpos hfind hm => ?_,
      fun v hv hpos hfind hm hd => ?_⟩
    · have hcm : checkManager db (normalizeRef data.manager_id) = some managerNotFound := by
        rw [hv, normalizeRef_pos v hpos]
        simp [checkManager, hfind]
      simp only [create_user_checked, hfresh, hcm]
    · have hcd : checkDepartment db (normalizeRef data.department_id) = some departmentNotFound := by
        rw [hv, normalizeRef_pos v hpos]
        simp [checkDepartment, hfind]
      simp only [create_user_checked, hfresh, hm, hcd]
    · have hco : checkOffice db (normalizeRef data.office_id) = some officeNotFound := by
        rw [hv, normalizeRef_pos v hpos]
        simp [checkOffice, hfind]
      simp only [create_user_checked, hfresh, hm, hd, hco]

/-- C6 witness: the first admin created with all references supplied as
0 stores all three as absent; dangling positive manager, department
and office ids each fail with their not-found error against the
populated store. -/
theorem create_user_reference_fields_witness :
    (rootUser.manager_id = none ∧ rootUser.department_id = none ∧ rootUser.office_id = none) ∧
    create_user_checked store1 dataBadMgr saltA = (store1, .error managerNotFound) ∧
    create_user_checked store1 dataBadDept saltA = (store1, .error departmentNotFound) ∧
    create_user_checked store1 dataBadOffice saltA = (store1, .error officeNotFound) := by
  have h1 := (create_user_reference_fields emptyStore none adminData saltA).1
    storeAfterRoot rootUser (by decide)
  have h2 := (create_user_reference_fields store1 none dataBadMgr saltA).2 (by decide)
  have h3 := (create_user_reference_fields store1 none dataBadDept saltA).2 (by decide)
  have h4 := (create_user_reference_fields store1 none dataBadOffice saltA).2 (by decide)
  exact ⟨⟨h1.1 rfl, h1.2.1 rfl, h1.2.2.1 rfl⟩,
    h2.1 9 rfl (by decide) (by decide),
    h3.2.1 7 rfl (by decide) (by decide) (by decide),
    h4.2.2 3 rfl (by decide) (by decide) (by decide) (by decide)⟩

/-- C7: whenever some stored account already has the requested email
(exact string match), create_user leaves the store unchanged and cannot
succeed; if the caller passed the authentication gate it fails with
exactly the 400 duplicate-email error; and pairwise-distinct emails
are preserved by every create_user call. -/
theorem create_user_email_uniqueness (db : Store) (cur : Option User) (data : UserCreate)
    (salt : List Nat) :
    ((∃ w ∈ db.users, w.email = data.email) →
      (create_user db cur data salt).1 = db ∧
      (∀ db2 u, create_user db cur data salt ≠ (db2, .ok u)) ∧
      (∀ cu, cur = some cu → cu.role ∈ [UserRole.admin, UserRole.sub_admin, UserRole.hr] →
        create_user db cur data salt = (db, .error emailAlreadyRegistered))) ∧
    (List.Pairwise (fun a b => a.email ≠ b.email) db.users →
      List.Pairwise (fun a b => a.email ≠ b.email) (create_user db cur data salt).1.users) := by
  constructor
  · intro hdup
    obtain ⟨w, hw, he⟩ := hdup
    have hfound : ∃ w2, findUserByEmail db data.email = some w2 := by
      cases hf : findUserByEmail db data.email with
      | some w2 => exact ⟨w2, rfl⟩
      | none =>
        exfalso
        have hall := List.find?_eq_none.mp hf w hw
        simp [he] at hall
    obtain ⟨w2, hw2⟩ := hfound
    have hnotok : ∀ db2 u, create_user db cur data salt ≠ (db2, .ok u) := by
      intro db2 u hok
      have hc := create_user_ok_to_checked db cur data salt db2 u hok
      have hs := create_user_checked_ok_spec db data salt db2 u hc
      rw [hs.1] at hw2
      exact Option.noConfusion hw2
    refine ⟨?_, hnotok, ?_⟩
    · cases hres : create_user db cur data salt with
      | mk db2 r =>
        cases r with
        | error e => exact create_user_error db cur data salt db2 e hres
        | ok u => exact absurd hres (hnotok db2 u)
    · intro cu hcu hrole
      have hne : countUsers db ≠ 0 := by
        unfold countUsers
        have : db.users ≠ [] := List.ne_nil_of_mem hw
        simpa [List.length_eq_zero] using this
      simp only [create_user, if_neg hne, hcu, if_neg (not_not_intro hrole),
        create_user_checked, hw2]
  · intro hpw
    cases hres : create_user db cur data salt with
    | mk db2 r =>
      cases r with
      | error e =>
        have hdb : db2 = db := create_user_error db cur data salt db2 e hres
        simp only [hres, hdb]
        exact hpw
      | ok u =>
        have hc := create_user_ok_to_checked db cur data salt db2 u hres
        have hs := create_user_checked_ok_spec db data salt db2 u hc
        simp only [hres]
        rw [hs.2.2.2.2.2.2.2.2, List.pairwise_append]
        refine ⟨hpw, List.pairwise_singleton _ _, ?_⟩
        intro a ha b hb
        have hb2 : b = u := List.mem_singleton.mp hb
        subst hb2
        rw [hs.2.1]
        intro heq
        have hall := List.find?_eq_none.mp hs.1 a ha
        simp [heq] at hall

/-- C7 witness: creating with the email of an existing account against
the populated store leaves it unchanged and yields the duplicate-email
error for an authorized caller. -/
theorem create_user_email_uniqueness_witness :
    (create_user store1 (some activeAdmin) dupEmailData saltA).1 = store1 ∧
    create_user store1 (some activeAdmin) dupEmailData saltA =
      (store1, .error emailAlreadyRegistered) := by
  have h := (create_user_email_uniqueness store1 (some activeAdmin) dupEmailData saltA).1
    ⟨activeAdmin, by decide, rfl⟩
  exact ⟨h.1, h.2.2 activeAdmin rfl (by decide)⟩

/-- C8: every error exit of create_user and create_department returns
the store unchanged — each raise occurs before the new record is added
and committed. -/
theorem creation_all_or_nothing (db : Store) (cur : Option User) (data : UserCreate)
    (salt : List Nat) (dd : DepartmentCreate) :
    (∀ db2 e, create_user db cur data salt = (db2, .error e) → db2 = db) ∧
    (∀ db2 e, create_department db dd = (db2, .error e) → db2 = db) :=
  ⟨fun db2 e h => create_user_error db cur data salt db2 e h,
   fun db2 e h => create_department_error db dd db2 e h⟩

/-- C8 witness: a 401 create_user exit and a duplicate-name
create_department exit, both leaving the populated store unchanged. -/
theorem creation_all_or_nothing_witness :
    (create_user store1 none newUserData saltA).1 = store1 ∧
    (create_department store1 ⟨"Engineering"⟩).1 = store1 :=
  ⟨(creation_all_or_nothing store1 none newUserData saltA ⟨"Engineering"⟩).1
     (create_user store1 none newUserData saltA).1 notAuthenticated (by decide),
   (creation_all_or_nothing store1 none newUserData saltA ⟨"Engineering"⟩).2
     (create_department store1 ⟨"Engineering"⟩).1 (departmentExists "Engineering") (by decide)⟩

theorem countRoleFilter_of_parse (role : Option String) (rf : Option UserRole)
    (h : parseRoleFilter role = .ok rf) : countRoleFilter role = rf := by
  cases role with
  | none =>
    simp [parseRoleFilter] at h
    simp [countRoleFilter, ← h]
  | some r =>
    by_cases hr : r = ""
    · subst hr
      simp [parseRoleFilter] at h
      simp [countRoleFilter, ← h]
    · simp only [parseRoleFilter, if_pos hr] at h
      cases ho : UserRole.ofValue r with
      | none =>
        rw [ho] at h
        exact absurd h (by simp)
      | some ur =>
        rw [ho] at h
        simp only [countRoleFilter, if_pos hr, ho]
        simpa using h

theorem countStatusFilter_of_parse (status_filter : Option String) (sf : Option UserStatus)
    (h : parseStatusFilter status_filter = .ok sf) : countStatusFilter status_filter = sf := by
  cases status_filter with
  | none =>
    simp [parseStatusFilter] at h
    simp [countStatusFilter, ← h]
  | some s =>
    by_cases hs : s = ""
    · subst hs
      simp [parseStatusFilter] at h
      simp [countStatusFilter, ← h]
    · simp only [parseStatusFilter, if_pos hs] at h
      cases ho : UserStatus.ofValue s with
      | none =>
        rw [ho] at h
        exact absurd h (by simp)
      | some us =>
        rw [ho] at h
        simp only [countStatusFilter, if_pos hs, ho]
        simpa using h

/-- C10: on every successful listing, the returned total is the number
of stored users matching the parsed role/status filters over the whole
directory, and the same query with any other skip/limit succeeds with
the same total. -/
theorem get_users_total_spec (db : Store) (cu : User) (skip limit skip2 limit2 : Nat)
    (role status_filter : Option String) (resp : UserListResponse)
    (rf : Option UserRole) (sf : Option UserStatus)
    (h : get_users db cu skip limit role status_filter = .ok resp)
    (hr : parseRoleFilter role = .ok rf) (hs : parseStatusFilter status_filter = .ok sf) :
    resp.total = (applyFilters db.users rf sf).length ∧
    ∃ resp2, get_users db cu skip2 limit2 role status_filter = .ok resp2 ∧
      resp2.total = resp.total := by
  simp only [get_users] at h ⊢
  split at h
  · exact absurd h (by simp)
  · rename_i hgate
    rw [if_neg hgate]
    simp only [hr, hs] at h ⊢
    have hresp : resp = ⟨(((applyFilters db.users rf sf).drop skip).take limit).map userToResponse,
        (applyFilters db.users (countRoleFilter role) (countStatusFilter status_filter)).length⟩ := by
      injection h with h2
      exact h2.symm
    subst hresp
    rw [countRoleFilter_of_parse role rf hr, countStatusFilter_of_parse status_filter sf hs]
    exact ⟨rfl, ⟨_, rfl, rfl⟩⟩

/-- C10 witness: filtering the populated store by role employee, page
(skip 0, limit 1) returns total 2, and page (skip 1, limit 5) has the
same total. -/
theorem get_users_total_spec_witness :
    (⟨[userToResponse inactiveBob], 2⟩ : UserListResponse).total =
      (applyFilters store1.users (some UserRole.employee) none).length ∧
    ∃ resp2, get_users store1 activeAdmin 1 5 (some "employee") none = .ok resp2 ∧
      resp2.total = (⟨[userToResponse inactiveBob], 2⟩ : UserListResponse).total :=
  get_users_total_spec store1 activeAdmin 0 1 1 5 (some "employee") none
    ⟨[userToResponse inactiveBob], 2⟩ (some UserRole.employee) none (by decide) rfl rfl

end Hrms
